import Mathlib

/-!
Verification of the Rust HID driver adapter (`src/rust/kernel/hid.rs`) and the
Nintendo controller driver (`src/drivers/hid/hid_nintendo.rs`) against their
natural-language specification.

The Rust code is shallowly embedded: machine integers become `Nat` with the
width reduction made explicit where it matters, fallible operations become
`Except`, and the externally observable effects of `probe` (which host
operations it invokes, in which order) are recorded in an explicit trace.
-/

/- ===== Capability masks (src/rust/kernel/hid.rs, lines 124-169) ===== -/

/-- Capability request flags, mirroring `enum ConnectionRequest` with its Rust
discriminants 0..6. -/
inductive ConnectionRequest
  | HidInput
  | HidInputForce
  | HidRaw
  | HidDev
  | HidDevForce
  | FF
  | Driver
deriving DecidableEq, Repr

/-- The Rust discriminant of each `ConnectionRequest` variant (`req as c_uint`). -/
def ConnectionRequest.val : ConnectionRequest → Nat
  | .HidInput => 0
  | .HidInputForce => 1
  | .HidRaw => 2
  | .HidDev => 3
  | .HidDevForce => 4
  | .FF => 5
  | .Driver => 6

/-- The helper `const fn bit(x: c_uint) -> c_uint { 1 << x }`. A `c_uint` shift
masks the shift amount to the 32-bit width. -/
def bit (x : Nat) : Nat := 2 ^ (x % 32)

/-- `impl From<ConnectionRequest> for ConnectionMask`: `ConnectionMask(bit(req as c_uint))`.
The inner `c_uint` of a `ConnectionMask` is modelled as a `Nat`. -/
def ConnectionRequest.toMask (req : ConnectionRequest) : Nat := bit req.val

/-- `impl BitOr for ConnectionMask` exactly as written in the source:
`ConnectionMask(bit(self.0) | bit(rhs.0))`, i.e. it applies `bit` again to the
two operands, which are already shifted mask values. -/
def ConnectionMask.bitor (a b : Nat) : Nat := bit a ||| bit b

/-- The list of all defined capability flags. -/
def allConnectionRequests : List ConnectionRequest :=
  [.HidInput, .HidInputForce, .HidRaw, .HidDev, .HidDevForce, .FF, .Driver]

/-- Decode which defined flags are set in a mask: the flags whose bit position
is set. -/
def decodeMask (m : Nat) : List ConnectionRequest :=
  allConnectionRequests.filter (fun f => Nat.testBit m f.val)

/- ===== Reliable send (src/drivers/hid/hid_nintendo.rs, lines 25-40) ===== -/

/-- Outcome of the `hid_send_sync` loop body. `err e n` means the function
returned the error `e` after `n` calls of `hid_send`; `noValue n` means control
fell off the end of the `for` loop after `n` successful calls with no value
returned (the source's `for _ in 0..tries { hid_send(dev, data)?; }` has no
success exit, so the success path produces no return value). -/
inductive SyncOutcome (E : Type)
  | err (e : E) (attempts : Nat)
  | noValue (attempts : Nat)
deriving DecidableEq, Repr

/-- The `for _ in 0..rem` loop of `hid_send_sync`. `send i` is the result of the
i-th invocation (0-based) of `hid_send dev data` — each invocation allocates a
copy of `data` and forwards it to `hw_output_report`, so `send` folds both the
allocation and the transport outcome of that attempt. `done` counts the calls
already made. The `?` operator returns the error eagerly. -/
def syncLoop {E : Type} (send : Nat → Except E Unit) : Nat → Nat → SyncOutcome E
  | done, 0 => .noValue done
  | done, rem + 1 =>
    match send done with
    | .error e => .err e (done + 1)
    | .ok _ => syncLoop send (done + 1) rem

/-- `hid_send_sync(dev, data, timeout)` as written: `let tries = 2;` then the
`for` loop. The `timeout` argument is accepted and unused, as in the source. -/
def hid_send_sync {E : Type} (send : Nat → Except E Unit) (_timeout : Nat) : SyncOutcome E :=
  syncLoop send 0 2

/- ===== Identity table (src/rust/kernel/hid.rs lines 252-306,
        src/drivers/hid/hid_nintendo.rs lines 88-120) ===== -/

/-- The host record format `bindings::hid_device_id`
(`{bus: u16, group: u16, vendor: u32, product: u32, driver_data}`); the fields
are modelled as `Nat`, every authored value fits its width. -/
structure hid_device_id where
  bus : Nat
  group : Nat
  vendor : Nat
  product : Nat
  driver_data : Nat
deriving DecidableEq, Repr

/-- Host bus identifier `BUS_BLUETOOTH` (value 5 in the Linux ABI headers, which
the `bindings` crate re-exports; the source enum discriminant `Bluetooth = 5`
matches it). -/
def BUS_BLUETOOTH : Nat := 5

/-- Host bus identifier `BUS_USB` (value 3 in the Linux ABI headers; the source
enum discriminant `USB = 3` matches it). -/
def BUS_USB : Nat := 3

/-- `enum DeviceKind { Bluetooth = 5, USB = 3 }`. -/
inductive DeviceKind
  | Bluetooth
  | USB
deriving DecidableEq, Repr

/-- `DeviceKind::bus_id`: maps the bus kind to the host's numeric bus id. -/
def DeviceKind.bus_id : DeviceKind → Nat
  | .Bluetooth => BUS_BLUETOOTH
  | .USB => BUS_USB

/-- The human-authored identity entry `HidDeviceId { kind, vendor: u16, product: u16 }`. -/
structure HidDeviceId where
  kind : DeviceKind
  vendor : Nat
  product : Nat
deriving DecidableEq, Repr

/-- `HidDeviceId::ZERO`: the all-zero sentinel record ending an identity table. -/
def HidDeviceId.ZERO : hid_device_id :=
  { bus := 0, group := 0, vendor := 0, product := 0, driver_data := 0 }

/-- `HidDeviceId::to_rawid`: converts an authored entry to the host record
format — the bus kind becomes the numeric bus id, vendor and product are
widened from `u16` to `u32` (value-preserving), and the remaining fields are
taken from `ZERO`. -/
def HidDeviceId.to_rawid (x : HidDeviceId) : hid_device_id :=
  { bus := x.kind.bus_id, group := 0, vendor := x.vendor, product := x.product,
    driver_data := 0 }

/-- The five authored entries of the Nintendo driver's table, in source order. -/
def nintendoAuthored : List HidDeviceId :=
  [ { kind := .USB, vendor := 0x057e, product := 0x2009 },
    { kind := .Bluetooth, vendor := 0x057e, product := 0x2009 },
    { kind := .USB, vendor := 0x057e, product := 0x200e },
    { kind := .Bluetooth, vendor := 0x057e, product := 0x2006 },
    { kind := .Bluetooth, vendor := 0x057e, product := 0x2007 } ]

/-- `Nintendo::ID_TABLE` exactly as authored: the five converted entries
followed by the sentinel. -/
def Nintendo.ID_TABLE : List hid_device_id :=
  [ HidDeviceId.to_rawid { kind := .USB, vendor := 0x057e, product := 0x2009 },
    HidDeviceId.to_rawid { kind := .Bluetooth, vendor := 0x057e, product := 0x2009 },
    HidDeviceId.to_rawid { kind := .USB, vendor := 0x057e, product := 0x200e },
    HidDeviceId.to_rawid { kind := .Bluetooth, vendor := 0x057e, product := 0x2006 },
    HidDeviceId.to_rawid { kind := .Bluetooth, vendor := 0x057e, product := 0x2007 },
    HidDeviceId.ZERO ]

/- ===== Controller state and probe (src/drivers/hid/hid_nintendo.rs
        lines 17-23 and 46-84) ===== -/

/-- `enum ControllerState` from the source. `Init` is its only variant. -/
inductive ControllerState
  | Init
deriving DecidableEq, Repr

/-- Observable host operations that `probe` may invoke, in trace form.
`sendReport` stands for any invocation of the reliable-send helper (a handshake
report); `probe` as written never emits it. -/
inductive ProbeOp
  | alloc
  | parse
  | hwStart (mask : Nat)
  | hwOpen
  | ioStart
  | sendReport
deriving DecidableEq, Repr

/-- The environment's response to each fallible step of `probe`: the result of
`Box::try_new` (allocation of the per-device `Controller`), of `dev.parse()`,
of `dev.hw_start(mask)` for the requested mask, and of `dev.hw_open()`.
`io_start` is infallible and has no entry. -/
structure ProbeBehavior (E : Type) where
  boxAlloc : Except E Unit
  parse : Except E Unit
  hwStart : Nat → Except E Unit
  hwOpen : Except E Unit

/-- What `probe` produces: its `Result`, the trace of host operations it
invoked (in order), and the final state of the per-device `Controller` (`none`
when allocation failed before the controller existed). -/
structure ProbeResult (E : Type) where
  result : Except E Unit
  trace : List ProbeOp
  finalState : Option ControllerState

/-- The mask `probe` passes to `hw_start`: `ConnectionRequest::HidRaw.into()`. -/
def hidRawMask : Nat := ConnectionRequest.toMask .HidRaw

/-- `Nintendo::probe` as written: allocate the `Controller { state: Init }`,
then `dev.parse()?`, `dev.hw_start(ConnectionRequest::HidRaw.into())?`,
`dev.hw_open()?`, `dev.io_start()`, then return `Ok(())`. The handshake is a
`try handshake` comment only; no report is sent, and the controller state is
never changed from `Init`. -/
def Nintendo.probe {E : Type} (b : ProbeBehavior E) : ProbeResult E :=
  match b.boxAlloc with
  | .error e => { result := .error e, trace := [.alloc], finalState := none }
  | .ok _ =>
    match b.parse with
    | .error e =>
        { result := .error e, trace := [.alloc, .parse], finalState := some .Init }
    | .ok _ =>
      match b.hwStart hidRawMask with
      | .error e =>
          { result := .error e, trace := [.alloc, .parse, .hwStart hidRawMask],
            finalState := some .Init }
      | .ok _ =>
        match b.hwOpen with
        | .error e =>
            { result := .error e,
              trace := [.alloc, .parse, .hwStart hidRawMask, .hwOpen],
              finalState := some .Init }
        | .ok _ =>
            { result := .ok (),
              trace := [.alloc, .parse, .hwStart hidRawMask, .hwOpen, .ioStart],
              finalState := some .Init }

/-- A probe environment in which every operation succeeds. -/
def allOkBehavior : ProbeBehavior Nat :=
  { boxAlloc := .ok (), parse := .ok (), hwStart := fun _ => .ok (), hwOpen := .ok () }

/- ===== Adapter trampolines (src/rust/kernel/hid.rs, lines 58-111) ===== -/

/-- Modelled from the spec: the kernel `Error` type and the `from_kernel_result`
conversion live in `crate::error`, outside `src/`. Per the spec, a typed
failure carries a host-defined errno and crosses the host boundary as a
negative integer status; an errno is a positive code. -/
structure KernelErrno where
  errno : Nat
  errno_pos : 0 < errno

/-- Modelled from the spec: translation of a typed error to the host's negative
status convention. -/
def to_kernel_errno (e : KernelErrno) : Int := -(e.errno : Int)

/-- `Adapter::probe_callback`: builds the device handle, runs `T::probe`, and
under `from_kernel_result` maps `Ok(())` to the integer 0 and an error to its
negative errno. The argument is the result of the `T::probe` call. -/
def probe_callback (r : Except KernelErrno Unit) : Int :=
  match r with
  | .ok _ => 0
  | .error e => to_kernel_errno e

/-- `Adapter::raw_event_callback`: same conversion around `T::raw_event`. -/
def raw_event_callback (r : Except KernelErrno Unit) : Int :=
  match r with
  | .ok _ => 0
  | .error e => to_kernel_errno e

/- ===== Device::io_start (src/rust/kernel/hid.rs, lines 202-214) ===== -/

/-- The slice of `struct hid_device` state that `io_start` touches: the
`io_started` flag and the `driver_input_lock` semaphore (modelled by the count
of `up` calls performed on it). -/
structure DeviceIoState where
  io_started : Bool
  lock_ups : Nat
deriving DecidableEq, Repr

/-- `Device::io_start`: warn (without failing) when `io_started` is already
set, then set `io_started` and `up` the semaphore. Returns the updated state
and whether the double-activation warning was logged; the Rust function returns
`()` — it has no error channel at all. -/
def Device.io_start (d : DeviceIoState) : DeviceIoState × Bool :=
  ({ io_started := true, lock_ups := d.lock_ups + 1 }, d.io_started)

/- ===== Nintendo::raw_event (src/drivers/hid/hid_nintendo.rs, lines 75-84) ===== -/

/-- `Nintendo::raw_event`: reads the device name and `data.len()`, logs them,
and returns `Ok(())`. It inspects neither the report metadata nor the bytes
beyond the length, and changes no per-device state. The components returned
are the `Result`, the (unchanged) controller state, and the logged length. -/
def Nintendo.raw_event (E R : Type) (state : ControllerState) (_report : R)
    (data : List Nat) : Except E Unit × ControllerState × Nat :=
  (.ok (), state, data.length)

/- ========================= Theorems ========================= -/

/-- C1. The claim says `hid_send_sync` with bound k = 2 retries on failure:
always-failing sends should yield exactly 2 attempts and the last error. The
code diverges: the `?` inside the loop returns the FIRST error after exactly
one attempt. With sends failing as `error (100 + i)` on attempt i, the function
returns error 100 (the first) after 1 attempt, not error 101 after 2. -/
theorem hid_send_sync_always_fail_returns_first_error :
    hid_send_sync (fun i => Except.error (100 + i)) 0 = SyncOutcome.err 100 1 := by
  rfl

/-- C2. The claim says the helper always returns a result to its caller after
at most `max_tries` underlying invocations. The code diverges on the success
path: when every send succeeds, the `for` loop completes its 2 iterations and
control falls off the end with no value returned (`noValue 2`) — there is no
success exit. -/
theorem hid_send_sync_all_success_no_result :
    hid_send_sync (fun _ => (Except.ok () : Except Nat Unit)) 0 = SyncOutcome.noValue 2 := by
  rfl

/-- C3. The claim says mask composition is pure bitwise OR, hence associative.
The source's `BitOr` re-applies the `bit` shift to both operands, so it is not
associative: over the masks of `HidInput`, `HidInputForce`, `HidRaw` (values 1,
2, 4) the two association orders give 80 and 1048578. -/
theorem connectionMask_bitor_not_associative :
    ConnectionMask.bitor
        (ConnectionMask.bitor (ConnectionRequest.toMask .HidInput)
          (ConnectionRequest.toMask .HidInputForce))
        (ConnectionRequest.toMask .HidRaw)
      ≠
    ConnectionMask.bitor (ConnectionRequest.toMask .HidInput)
        (ConnectionMask.bitor (ConnectionRequest.toMask .HidInputForce)
          (ConnectionRequest.toMask .HidRaw)) := by
  decide

/-- C4. The claim says composing the masks of a flag subset and decoding the
set bits recovers the subset. For S = \x7bHidInput, HidInputForce\x7d the
source's composition yields mask 6, which decodes to
\x7bHidInputForce, HidRaw\x7d, not S: the round-trip fails. -/
theorem connectionMask_roundtrip_failure :
    decodeMask
        (ConnectionMask.bitor (ConnectionRequest.toMask .HidInput)
          (ConnectionRequest.toMask .HidInputForce))
      = [ConnectionRequest.HidInputForce, ConnectionRequest.HidRaw]
    ∧ ([ConnectionRequest.HidInputForce, ConnectionRequest.HidRaw]
        ≠ [ConnectionRequest.HidInput, ConnectionRequest.HidInputForce]) := by
  decide

/-- C5. `Nintendo::probe` (with the controller allocation succeeding) performs
`parse`, `hw_start` requesting the raw-report capability, `hw_open`, `io_start`
in exactly that order; on the first failing operation it returns that
operation's error with no subsequent bring-up operation in the trace; and it
never sends a handshake report. -/
theorem nintendo_probe_bringup_sequence (E : Type) (b : ProbeBehavior E)
    (halloc : b.boxAlloc = Except.ok ()) :
    (∀ e, b.parse = Except.error e →
        Nintendo.probe b
          = { result := .error e, trace := [.alloc, .parse], finalState := some .Init })
    ∧ (∀ e, b.parse = Except.ok () → b.hwStart hidRawMask = Except.error e →
        Nintendo.probe b
          = { result := .error e, trace := [.alloc, .parse, .hwStart hidRawMask],
              finalState := some .Init })
    ∧ (∀ e, b.parse = Except.ok () → b.hwStart hidRawMask = Except.ok () →
          b.hwOpen = Except.error e →
        Nintendo.probe b
          = { result := .error e,
              trace := [.alloc, .parse, .hwStart hidRawMask, .hwOpen],
              finalState := some .Init })
    ∧ (b.parse = Except.ok () → b.hwStart hidRawMask = Except.ok () →
          b.hwOpen = Except.ok () →
        Nintendo.probe b
          = { result := .ok (),
              trace := [.alloc, .parse, .hwStart hidRawMask, .hwOpen, .ioStart],
              finalState := some .Init })
    ∧ Nat.testBit hidRawMask (ConnectionRequest.val .HidRaw) = true
    ∧ ProbeOp.sendReport ∉ (Nintendo.probe b).trace := by
  refine ⟨?_, ?_, ?_, ?_, by decide, ?_⟩
  · intro e hp
    simp [Nintendo.probe, halloc, hp]
  · intro e hp hs
    simp [Nintendo.probe, halloc, hp, hs]
  · intro e hp hs ho
    simp [Nintendo.probe, halloc, hp, hs, ho]
  · intro hp hs ho
    simp [Nintendo.probe, halloc, hp, hs, ho]
  · unfold Nintendo.probe
    cases b.boxAlloc with
    | error e => simp
    | ok u =>
      cases b.parse with
      | error e => simp
      | ok u =>
        cases b.hwStart hidRawMask with
        | error e => simp
        | ok u =>
          cases b.hwOpen with
          | error e => simp
          | ok u => simp

/-- Witness for C5: the theorem instantiated at the all-successful environment
yields the full bring-up trace with success. -/
theorem nintendo_probe_bringup_sequence_witness :
    Nintendo.probe allOkBehavior
      = { result := .ok (),
          trace := [.alloc, .parse, .hwStart hidRawMask, .hwOpen, .ioStart],
          finalState := some .Init } := by
  have h := nintendo_probe_bringup_sequence Nat allOkBehavior rfl
  exact h.2.2.2.1 rfl rfl rfl

/-- C6. The claim says a successful probe has sent a handshake report and left
the per-device state `AwaitingHandshakeAck`, never `Init`. The code diverges:
with every operation succeeding, probe returns `Ok` while its trace contains no
report send at all, and the controller state is still `Init` (the only variant
`ControllerState` has — the handshake is an unimplemented comment). -/
theorem nintendo_probe_success_without_handshake :
    (Nintendo.probe allOkBehavior).result = Except.ok ()
    ∧ ProbeOp.sendReport ∉ (Nintendo.probe allOkBehavior).trace
    ∧ (Nintendo.probe allOkBehavior).finalState = some ControllerState.Init := by
  refine ⟨rfl, by decide, rfl⟩

/-- C7. The Nintendo identity table built from the 5 authored entries has
exactly 6 records; the final record is the all-zero sentinel; every authored
entry appears converted by `to_rawid` (bus kind mapped to the numeric bus id,
vendor and product widened); and the sentinel differs from every converted
authored entry. -/
theorem nintendo_id_table_wellformed :
    Nintendo.ID_TABLE = nintendoAuthored.map HidDeviceId.to_rawid ++ [HidDeviceId.ZERO]
    ∧ Nintendo.ID_TABLE.length = nintendoAuthored.length + 1
    ∧ Nintendo.ID_TABLE.getLast? = some HidDeviceId.ZERO
    ∧ (∀ a ∈ nintendoAuthored, HidDeviceId.to_rawid a ∈ Nintendo.ID_TABLE)
    ∧ (∀ a ∈ nintendoAuthored, HidDeviceId.to_rawid a ≠ HidDeviceId.ZERO) := by
  decide

/-- C8. Each integer-returning trampoline returns 0 exactly when the trait
method succeeded and a negative status exactly when it returned a typed
failure; no typed error crosses the boundary untranslated. -/
theorem adapter_callbacks_status_convention (r s : Except KernelErrno Unit) :
    (probe_callback r = 0 ↔ r = Except.ok ())
    ∧ (probe_callback r < 0 ↔ ∃ e, r = Except.error e)
    ∧ (raw_event_callback s = 0 ↔ s = Except.ok ())
    ∧ (raw_event_callback s < 0 ↔ ∃ e, s = Except.error e) := by
  constructor
  · cases r with
    | ok u => cases u; simp [probe_callback]
    | error e =>
      have he := e.errno_pos
      simp only [probe_callback, to_kernel_errno]
      constructor
      · omega
      · intro h
        exact absurd h (by simp)
  constructor
  · cases r with
    | ok u =>
      simp only [probe_callback]
      constructor
      · omega
      · rintro ⟨e, h⟩
        exact absurd h (by simp)
    | error e =>
      have he := e.errno_pos
      simp only [probe_callback, to_kernel_errno]
      constructor
      · intro _
        exact ⟨e, rfl⟩
      · intro _
        omega
  constructor
  · cases s with
    | ok u => cases u; simp [raw_event_callback]
    | error e =>
      have he := e.errno_pos
      simp only [raw_event_callback, to_kernel_errno]
      constructor
      · omega
      · intro h
        exact absurd h (by simp)
  · cases s with
    | ok u =>
      simp only [raw_event_callback]
      constructor
      · omega
      · rintro ⟨e, h⟩
        exact absurd h (by simp)
    | error e =>
      have he := e.errno_pos
      simp only [raw_event_callback, to_kernel_errno]
      constructor
      · intro _
        exact ⟨e, rfl⟩
      · intro _
        omega

/-- C9. `Device::io_start` never fails (it has no error channel and always
completes): for every device state it sets the `io_started` flag, and it logs
the double-activation warning exactly when the flag was already set. -/
theorem device_io_start_always_completes (d : DeviceIoState) :
    (Device.io_start d).1.io_started = true
    ∧ ((Device.io_start d).2 = true ↔ d.io_started = true) := by
  constructor
  · rfl
  · exact Iff.rfl

/-- C10. `Nintendo::raw_event` returns `Ok` for every state, report metadata,
and data slice (the empty slice included), and leaves the per-device state
unchanged. -/
theorem nintendo_raw_event_always_ok (R : Type) (state : ControllerState)
    (report : R) (data : List Nat) :
    (Nintendo.raw_event KernelErrno R state report data).1 = Except.ok ()
    ∧ (Nintendo.raw_event KernelErrno R state report data).2.1 = state := by
  exact ⟨rfl, rfl⟩
